import Mathlib

/-!
Shallow embedding of `src/lib/iotransit-cp.js` (nisient iotransit-cp, the
control-plane client class `IoTransit`).

Modelling conventions:
- JSON-representable JavaScript values are the inductive `JsValue`; JSON
  numbers appearing in this development are integers, so `num` carries `Int`.
- A JavaScript object is a key-ordered association list
  `List (String × JsValue)`; JS objects never hold duplicate keys, and the
  `for (var o in obj)` iteration is modelled as iteration in list order.
- Property access `x.k` throws a TypeError when `x` is `null` or `undefined`
  and evaluates to `undefined` on primitives, so `jsGet` returns
  `Except String JsValue`; thrown exceptions are `Except.error`.
- The `IoTransit` instance is `ClientState`: its JS-visible fields
  (`options`, `controlPlaneConnected`, `authDevice`, `authDomain`,
  `authenticated`, `sn`, `s2`, plus any field injected at runtime by the
  `setconfig` command writing `this[o] = ...`) live in the string-keyed map
  `fields`; the websocket client object `this.cp` (never JSON-representable)
  is modelled as a separate component `cp`.
- `this.emit(name, arg)` is recorded as an `Emitted` value; the `target`
  distinguishes the emitter the event lands on, because one handler in the
  source (`connection.on` for `error`, lines 102-104) is a non-arrow
  `function` whose dynamic `this` is the websocket connection object rather
  than the `IoTransit` instance.
-/

namespace IoTransit

/-- JSON-representable JavaScript values (numbers restricted to integers). -/
inductive JsValue where
  | null : JsValue
  | undefined : JsValue
  | bool : Bool → JsValue
  | num : Int → JsValue
  | str : String → JsValue
  | arr : List JsValue → JsValue
  | obj : List (String × JsValue) → JsValue

/-- JavaScript truthiness of a value (NaN and floats are not modelled;
every number occurring here is an integer, whose truthiness is being
nonzero). -/
def truthy : JsValue → Bool
  | .null => false
  | .undefined => false
  | .bool b => b
  | .num n => n != 0
  | .str s => s.length != 0
  | .arr _ => true
  | .obj _ => true

/-- JavaScript strict equality `===` for the values flowing through this
program: structural on primitives; an object or array produced by
`JSON.parse` is a fresh reference, never `===` to any other value, so
object and array comparisons yield `false`. -/
def jsStrictEq : JsValue → JsValue → Bool
  | .null, .null => true
  | .undefined, .undefined => true
  | .bool a, .bool b => a == b
  | .num a, .num b => a == b
  | .str a, .str b => a == b
  | _, _ => false

/-- Property lookup in an object field list: value of the first matching
key, `undefined` when absent (JS objects hold each key at most once). -/
def objGet : List (String × JsValue) → String → JsValue
  | [], _ => .undefined
  | (k1, v) :: rest, k => if k1 = k then v else objGet rest k

/-- `Object.prototype.hasOwnProperty` on an object field list. -/
def hasKey : List (String × JsValue) → String → Bool
  | [], _ => false
  | (k1, _) :: rest, k => if k1 = k then true else hasKey rest k

/-- Property assignment `obj[k] = v`: updates the first occurrence in
place, appends a new entry when the key is absent (JS insertion order). -/
def setProp : List (String × JsValue) → String → JsValue → List (String × JsValue)
  | [], k, v => [(k, v)]
  | (k1, v1) :: rest, k, v =>
      if k1 = k then (k1, v) :: rest else (k1, v1) :: setProp rest k v

/-- Property access `x.k`: TypeError on `null`/`undefined`, lookup on an
object, `undefined` on other values (primitives box to wrapper objects
whose properties named here are absent; arrays carry no string-named data
properties in this program). -/
def jsGet (v : JsValue) (k : String) : Except String JsValue :=
  match v with
  | .null => .error "TypeError: Cannot read properties of null"
  | .undefined => .error "TypeError: Cannot read properties of undefined"
  | .obj fs => .ok (objGet fs k)
  | _ => .ok .undefined

/-- The short-circuit `a || b` as it is used on values in the source. -/
def jsOr (a b : JsValue) : JsValue :=
  if truthy a then a else b

/-- `Array.isArray`. -/
def isArray : JsValue → Bool
  | .arr _ => true
  | _ => false

/-- The test `typeof x === "string"`. -/
def jsTypeIsString : JsValue → Bool
  | .str _ => true
  | _ => false

/-- `acceptTags.indexOf(t) !== -1`: membership by `===` when the receiver
is an array; a TypeError when the receiver has no `indexOf` method (in
this program the receiver is either an array or `undefined`). -/
def jsIndexOfMem (receiver x : JsValue) : Except String Bool :=
  match receiver with
  | .arr xs => .ok (xs.any fun e => jsStrictEq e x)
  | _ => .error "TypeError: indexOf is not a function"

/-- The live websocket connection object (`connection` in the source);
`connected` is the property read by `sendCP`. -/
structure Connection where
  connected : Bool

/-- The websocket client object created by `connect()` (`this.cp`); its
`connection` property is assigned only inside the `connect` event handler,
so it is absent (`none`) until the first successful open. -/
structure WebSocketClient where
  connection : Option Connection

/-- The `IoTransit` instance: JS-visible fields as a string-keyed map
(constructor-written fields plus any field later injected by `setconfig`),
and the non-JSON websocket client `this.cp` (absent until `connect()` is
called). -/
structure ClientState where
  fields : List (String × JsValue)
  cp : Option WebSocketClient

/-- Read an instance field `this.k` (`undefined` when never written). -/
def getField (st : ClientState) (k : String) : JsValue :=
  objGet st.fields k

/-- Write an instance field `this[k] = v`. -/
def setField (st : ClientState) (k : String) (v : JsValue) : ClientState :=
  { st with fields := setProp st.fields k v }

/-- Which emitter an emitted event lands on: the `IoTransit` instance
(the event surface the host application subscribes to) or the websocket
connection object (reached only by the mis-bound `error` handler). -/
inductive EmitTarget where
  | client : EmitTarget
  | connection : EmitTarget

/-- One `emit(name, arg)` call, with the emitter it was invoked on. The
event name is kept as a `JsValue` because line 125 emits under the name
`rcvMsg.p.cmd`, an arbitrary received value. -/
structure Emitted where
  target : EmitTarget
  name : JsValue
  arg : JsValue

/-- True for events visible on the client instance event surface. -/
def isClientEvent (e : Emitted) : Bool :=
  match e.target with
  | .client => true
  | .connection => false

/-- The `setconfig` field patch, lines 134-138: for each own payload key
other than `cmd`, write `this[o] = rcvMsg.p[o]` in iteration order. -/
def patchFields (st : ClientState) : List (String × JsValue) → ClientState
  | [] => st
  | (k, v) :: rest =>
      patchFields (if k = "cmd" then st else setField st k v) rest

/-- The `setconfig` branch body applied to the payload value `rcvMsg.p`
(`for (var o in p)` iterates nothing on non-objects, so they patch no
field; in the program this branch is only reached when `p` is an object,
since reaching it requires `p.cmd === "setconfig"`). -/
def applySetconfig (st : ClientState) (p : JsValue) : ClientState :=
  match p with
  | .obj pfs => patchFields st pfs
  | _ => st

/-- The utf8 message handler, lines 118-146, applied to the already
JSON-parsed envelope `rcvMsg`: the `evt` branch translates or forwards the
envelope, the default branch tag-filters, runs the command switch
(`loglevels` no-op, `setconfig` patch, unknown no-op) and emits the
generic `cpMessage` event. Returns the updated instance state and the
emit calls, or the thrown exception. -/
def handleUtf8Message (st : ClientState) (rcvMsg : JsValue) :
    Except String (ClientState × List Emitted) :=
  match jsGet rcvMsg "t" with
  | .error e => .error e
  | .ok tv =>
    if jsStrictEq tv (.str "evt") then
      match jsGet (getField st "options") "emitEventsAsCP" with
      | .error e => .error e
      | .ok emitAsCP =>
        if truthy emitAsCP then
          .ok (st, [⟨.client, .str "cpMessage", rcvMsg⟩])
        else
          match jsGet rcvMsg "p" with
          | .error e => .error e
          | .ok p =>
            match jsGet p "cmd", jsGet p "args", jsGet p "dto" with
            | .ok cmd, .ok args, .ok dto =>
                .ok (st, [⟨.client, cmd, .obj [("args", args), ("dto", dto)]⟩])
            | .error e, _, _ => .error e
            | .ok _, .error e, _ => .error e
            | .ok _, .ok _, .error e => .error e
    else
      match jsGet (getField st "options") "acceptTags" with
      | .error e => .error e
      | .ok tagsV =>
        match jsIndexOfMem tagsV tv with
        | .error e => .error e
        | .ok mem =>
          if mem || jsStrictEq tv (.str "all") then
            match jsGet rcvMsg "p" with
            | .error e => .error e
            | .ok p =>
              match jsGet p "cmd" with
              | .error e => .error e
              | .ok cmd =>
                let st1 :=
                  if jsStrictEq cmd (.str "loglevels") then st
                  else if jsStrictEq cmd (.str "setconfig") then applySetconfig st p
                  else st
                .ok (st1, [⟨.client, .str "cpMessage", rcvMsg⟩])
          else
            .ok (st, [])

/-! ### Constructor (lines 45-83) -/

/-- Line 31 `AUTH_USER`. -/
def AUTH_USER : String := "ext"

/-- Line 32 `AUTH_PASS`. -/
def AUTH_PASS : String := "external"

/-- Line 34 `CONTROLPLANE_URI`. -/
def CONTROLPLANE_URI : String := "127.0.0.1"

/-- Line 35 `CONTROLPLANE_PORT`. -/
def CONTROLPLANE_PORT : Int := 10022

/-- Line 36 `CONTROLPLANE_SUBPROTOCOL`. -/
def CONTROLPLANE_SUBPROTOCOL : String := "cp.iotransit.net"

/-- Line 37 `CONTROLPLANE_ORIGIN`. -/
def CONTROLPLANE_ORIGIN : String := "control"

/-- Line 38 `AUTO_RECONNECT`. -/
def AUTO_RECONNECT : Bool := true

/-- Line 39 `RECONNECTION_TIMER`. -/
def RECONNECTION_TIMER : Int := 5000

/-- Line 40 `SECURE_WEBSOCKET`. -/
def SECURE_WEBSOCKET : Bool := false

/-- Line 41 `EMIT_EVENTS_AS_CP`. -/
def EMIT_EVENTS_AS_CP : Bool := false

/-- Constructor lines 49-57: validation of the `options` argument and the
initial value of `this.options`. `typeof` is `"object"` for `null` (caught
first), plain objects and arrays; an array has no own `appletId` property,
so it fails the `hasOwnProperty` check. An argument that is neither an
object nor a string leaves `this.options` unassigned, and the very next
statement (line 58, `this.options.hasOwnProperty`) throws a TypeError. -/
def initialOptions : JsValue → Except String (List (String × JsValue))
  | .null => .error "mandatory appletId not passed to constructor"
  | .undefined => .error "mandatory appletId not passed to constructor"
  | .obj fs =>
      if hasKey fs "appletId" then .ok fs
      else .error "mandatory appletId not provided in config"
  | .arr _ => .error "mandatory appletId not provided in config"
  | .str s => .ok [("appletId", .str s)]
  | _ => .error "TypeError: Cannot read properties of undefined"

/-- Constructor lines 58-66: normalization of `acceptTags` from the
`accepts` option. `this.options` is an object, hence truthy, so each
`this.options && x` prefix in the following lines evaluates to `x`;
options defaulted with `hasOwnProperty` ternaries keep any supplied value,
options defaulted with `||` fall back to the default on falsy values. -/
def acceptTagsStep (fs0 : List (String × JsValue)) : List (String × JsValue) :=
  if hasKey fs0 "accepts" then
    let a := objGet fs0 "accepts"
    if !isArray a && jsTypeIsString a then
      setProp fs0 "acceptTags" (.arr [a])
    else if isArray a then
      setProp fs0 "acceptTags" a
    else fs0
  else
    setProp fs0 "acceptTags" (.arr [objGet fs0 "appletId"])

/-- Constructor lines 67-76 following the `acceptTags` step: defaulting of
each remaining option, mutating `this.options` step by step exactly in
source order. -/
def normalizeOptions (fs0 : List (String × JsValue)) : List (String × JsValue) :=
  let fs1 := acceptTagsStep fs0
  let fs2 := setProp fs1 "authUser" (jsOr (objGet fs1 "authUser") (.str AUTH_USER))
  let fs3 := setProp fs2 "authPass" (jsOr (objGet fs2 "authPass") (.str AUTH_PASS))
  let fs4 := setProp fs3 "controlPlaneUri" (jsOr (objGet fs3 "controlPlaneUri") (.str CONTROLPLANE_URI))
  let fs5 := setProp fs4 "controlPlanePort" (jsOr (objGet fs4 "controlPlanePort") (.num CONTROLPLANE_PORT))
  let fs6 := setProp fs5 "controlPlaneSubProtocol" (jsOr (objGet fs5 "controlPlaneSubProtocol") (.str CONTROLPLANE_SUBPROTOCOL))
  let fs7 := setProp fs6 "controlPlaneOrigin" (jsOr (objGet fs6 "controlPlaneOrigin") (.str CONTROLPLANE_ORIGIN))
  let fs8 := setProp fs7 "autoReconnect"
    (if hasKey fs7 "autoReconnect" then objGet fs7 "autoReconnect" else .bool AUTO_RECONNECT)
  let fs9 := setProp fs8 "reconnectionTimer" (jsOr (objGet fs8 "reconnectionTimer") (.num RECONNECTION_TIMER))
  let fs10 := setProp fs9 "secureWebSocket"
    (if hasKey fs9 "secureWebSocket" then objGet fs9 "secureWebSocket" else .bool SECURE_WEBSOCKET)
  setProp fs10 "emitEventsAsCP"
    (if hasKey fs10 "emitEventsAsCP" then objGet fs10 "emitEventsAsCP" else .bool EMIT_EVENTS_AS_CP)

/-- The constructor, lines 45-83: validate the argument, normalize the
options, then initialize the instance fields in source order. The
constructor performs no transport operation; `this.cp` is created only by
`connect()` and is still absent (`none`) here. -/
def mkIoTransit (options : JsValue) : Except String ClientState :=
  match initialOptions options with
  | .error e => .error e
  | .ok fs =>
      .ok { fields :=
              [("options", .obj (normalizeOptions fs)),
               ("controlPlaneConnected", .bool false),
               ("authDevice", .str ""),
               ("authDomain", .str ""),
               ("authenticated", .bool false),
               ("sn", .str ""),
               ("s2", .str "")],
            cp := none }

/-! ### send / disconnect (lines 155-170) -/

/-- The `sendError` emit of line 168. -/
def sendErrorEvent : Emitted :=
  ⟨.client, .str "sendError", .str "control plane not connected"⟩

/-- `sendCP(sendMsg)`, lines 163-170. Evaluating `this.cp.connection`
throws a TypeError when `this.cp` is still `undefined` (i.e. `connect()`
was never called). Otherwise: when a connection object exists and its
`connected` property is true, `connection.send(JSON.stringify(sendMsg))`
runs — recorded as the single element of the sent-message list (the value
handed to serialization); in every other case the `sendError` event is
emitted. Result: updated state, emitted events, messages handed to the
transport. -/
def sendCP (st : ClientState) (sendMsg : JsValue) :
    Except String (ClientState × List Emitted × List JsValue) :=
  match st.cp with
  | none => .error "TypeError: Cannot read properties of undefined"
  | some ws =>
    match ws.connection with
    | some c =>
        if c.connected then .ok (st, [], [sendMsg])
        else .ok (st, [sendErrorEvent], [])
    | none => .ok (st, [sendErrorEvent], [])

/-- `connection.drop()`: the websocket library tears the socket down; on
the connection object itself the `connected` property becomes false (the
asynchronous `close` event it later produces is a separate
`closeHandler` step). -/
def dropConnection (c : Connection) : Connection :=
  { c with connected := false }

/-- `disconnect()`, lines 155-161: when `this.controlPlaneConnected` is
truthy, call `this.cp.connection.drop()` (a TypeError if `this.cp` or the
connection is absent in such a state); otherwise do nothing. It emits no
event, and contains no `clearTimeout` — the source never even stores the
value returned by `setTimeout`. -/
def disconnect (st : ClientState) : Except String (ClientState × List Emitted) :=
  if truthy (getField st "controlPlaneConnected") then
    match st.cp with
    | none => .error "TypeError: Cannot read properties of undefined"
    | some ws =>
      match ws.connection with
      | none => .error "TypeError: Cannot read properties of undefined"
      | some c =>
          .ok ({ st with cp := some { ws with connection := some (dropConnection c) } }, [])
  else
    .ok (st, [])

/-! ### Reconnection timers (lines 91-113) -/

/-- The delay argument handed to `setTimeout`: integers clamp below at 0,
numeric strings coerce, anything else (including `undefined`) coerces
to 0. -/
def delayOf : JsValue → Nat
  | .num n => n.toNat
  | .str s => (s.toNat?).getD 0
  | _ => 0

/-- The client plus the ambient single-threaded event loop: current wall
clock `now`, the earliest-allowed firing instants of pending reconnect
`setTimeout` callbacks (in scheduling order), and how many times
`this.cp.connect(...)` has been invoked by those callbacks. -/
structure SysState where
  client : ClientState
  now : Nat
  pendingReconnects : List Nat
  connectAttempts : Nat

/-- The `close` handler, lines 105-113: set
`this.controlPlaneConnected = false`, emit `connectionClose`, and if
`this.options.autoReconnect` is truthy schedule one `setTimeout` of the
reconnect callback with delay `this.options.reconnectionTimer` (the
callback may fire no earlier than `now + delay`). -/
def closeHandler (s : SysState) : Except String (SysState × List Emitted) :=
  let c := setField s.client "controlPlaneConnected" (.bool false)
  let ev : Emitted := ⟨.client, .str "connectionClose", .str "control plane connection closed"⟩
  match jsGet (getField c "options") "autoReconnect" with
  | .error e => .error e
  | .ok ar =>
    if truthy ar then
      match jsGet (getField c "options") "reconnectionTimer" with
      | .error e => .error e
      | .ok d =>
          .ok ({ s with client := c
                        pendingReconnects := s.pendingReconnects ++ [s.now + delayOf d] }, [ev])
    else
      .ok ({ s with client := c }, [ev])

/-- The `connectFailed` handler, lines 91-99: identical policy with the
`connectionFailed(err.toString())` emit instead. -/
def connectFailedHandler (s : SysState) (err : String) : Except String (SysState × List Emitted) :=
  let c := setField s.client "controlPlaneConnected" (.bool false)
  let ev : Emitted := ⟨.client, .str "connectionFailed", .str err⟩
  match jsGet (getField c "options") "autoReconnect" with
  | .error e => .error e
  | .ok ar =>
    if truthy ar then
      match jsGet (getField c "options") "reconnectionTimer" with
      | .error e => .error e
      | .ok d =>
          .ok ({ s with client := c
                        pendingReconnects := s.pendingReconnects ++ [s.now + delayOf d] }, [ev])
    else
      .ok ({ s with client := c }, [ev])

/-- The event loop attempting to deliver the earliest pending reconnect
timer at wall-clock instant `t`: `setTimeout` semantics allow delivery
only at `t` at or after the scheduled instant, and the callback body
(lines 109-111 and 95-97) is a single `this.cp.connect(...)` call,
counted in `connectAttempts`. Before the scheduled instant nothing
happens. -/
def fireReconnectTimer (s : SysState) (t : Nat) : SysState :=
  match s.pendingReconnects with
  | [] => s
  | e :: rest =>
      if e ≤ t then
        { s with now := t, pendingReconnects := rest,
                 connectAttempts := s.connectAttempts + 1 }
      else s

/-- `disconnect()` lifted to the event-loop state: the method body (lines
155-161) touches only the client instance and the connection object, so
the pending-timer list and the attempt counter pass through unchanged —
there is no timer handle in the source to cancel. -/
def sysDisconnect (s : SysState) : Except String (SysState × List Emitted) :=
  match disconnect s.client with
  | .error e => .error e
  | .ok (c, evs) => .ok ({ s with client := c }, evs)

/-- The mid-session `error` handler, lines 102-104. It is registered as
`connection.on('error', function (err) \x7b this.emit('connectionError',
err.toString()); \x7d)` — a non-arrow `function`, so its dynamic `this`
is the websocket connection object the handler is installed on, not the
`IoTransit` instance: the `connectionError` event is emitted on the
connection emitter and never reaches the client event surface. No
instance field is read or written. -/
def connectionErrorHandler (s : SysState) (err : String) : SysState × List Emitted :=
  (s, [⟨.connection, .str "connectionError", .str err⟩])

/-! ### Object-map lemmas -/

theorem objGet_setProp_same (fs : List (String × JsValue)) (k : String) (v : JsValue) :
    objGet (setProp fs k v) k = v := by
  induction fs with
  | nil => simp [setProp, objGet]
  | cons hd tl ih =>
    obtain ⟨k1, v1⟩ := hd
    by_cases h : k1 = k
    · subst h; simp [setProp, objGet]
    · simp [setProp, objGet, h, ih]

theorem objGet_setProp_other (fs : List (String × JsValue)) (k k1 : String) (v : JsValue)
    (h : k1 ≠ k) : objGet (setProp fs k v) k1 = objGet fs k1 := by
  have hne : ¬ k = k1 := fun hh => h hh.symm
  induction fs with
  | nil => simp [setProp, objGet, hne]
  | cons hd tl ih =>
    obtain ⟨k2, v2⟩ := hd
    by_cases h2 : k2 = k
    · subst h2
      simp [setProp, objGet, hne]
    · simp only [setProp, if_neg h2, objGet]
      by_cases h3 : k2 = k1 <;> simp [h3, ih]

theorem hasKey_setProp_other (fs : List (String × JsValue)) (k k1 : String) (v : JsValue)
    (h : k1 ≠ k) : hasKey (setProp fs k v) k1 = hasKey fs k1 := by
  have hne : ¬ k = k1 := fun hh => h hh.symm
  induction fs with
  | nil => simp [setProp, hasKey, hne]
  | cons hd tl ih =>
    obtain ⟨k2, v2⟩ := hd
    by_cases h2 : k2 = k
    · subst h2
      simp [setProp, hasKey, hne]
    · simp only [setProp, if_neg h2, hasKey]
      by_cases h3 : k2 = k1 <;> simp [h3, ih]

theorem getField_setField_same (st : ClientState) (k : String) (v : JsValue) :
    getField (setField st k v) k = v := by
  simp [getField, setField, objGet_setProp_same]

theorem getField_setField_other (st : ClientState) (k k1 : String) (v : JsValue)
    (h : k1 ≠ k) : getField (setField st k v) k1 = getField st k1 := by
  simp [getField, setField, objGet_setProp_other _ _ _ _ h]

theorem getField_patchFields_of_notMem (pfs : List (String × JsValue)) (st : ClientState)
    (k : String) (h : ∀ p ∈ pfs, p.1 ≠ k) :
    getField (patchFields st pfs) k = getField st k := by
  induction pfs generalizing st with
  | nil => simp [patchFields]
  | cons hd tl ih =>
    obtain ⟨k1, v1⟩ := hd
    have hk1 : k1 ≠ k := h (k1, v1) (List.mem_cons_self _ _)
    have htl : ∀ p ∈ tl, p.1 ≠ k := fun p hp => h p (List.mem_cons_of_mem _ hp)
    by_cases hc : k1 = "cmd"
    · simp [patchFields, hc, ih _ htl]
    · simp [patchFields, hc, ih _ htl, getField_setField_other _ _ _ _ (Ne.symm hk1)]

theorem getField_patchFields_of_mem (pfs : List (String × JsValue)) (st : ClientState)
    (k : String) (v : JsValue) (hnd : (pfs.map Prod.fst).Nodup)
    (hk : k ≠ "cmd") (hmem : (k, v) ∈ pfs) :
    getField (patchFields st pfs) k = v := by
  induction pfs generalizing st with
  | nil => cases hmem
  | cons hd tl ih =>
    obtain ⟨k1, v1⟩ := hd
    simp only [List.map_cons, List.nodup_cons] at hnd
    rcases List.mem_cons.mp hmem with heq | htl
    · injection heq with h1 h2
      subst h1
      subst h2
      have hnotin : ∀ p ∈ tl, p.1 ≠ k := by
        intro p hp hcontra
        exact hnd.1 (hcontra ▸ List.mem_map_of_mem Prod.fst hp)
      have hstep : patchFields st ((k, v) :: tl) = patchFields (setField st k v) tl := by
        simp [patchFields, hk]
      rw [hstep, getField_patchFields_of_notMem tl _ k hnotin, getField_setField_same]
    · show getField (patchFields (if k1 = "cmd" then st else setField st k1 v1) tl) k = v
      exact ih _ hnd.2 htl

/-! ### Claim theorems -/

/-- C1: for every inbound text envelope whose type is not `"evt"`, is not
a member of `acceptTags`, and is not the wildcard `"all"`, the router has
zero observable side effects: no event is emitted and no field of the
client state is mutated. -/
theorem router_unaccepted_tag_no_side_effects
    (st : ClientState) (ofs : List (String × JsValue)) (tags : List JsValue)
    (efs : List (String × JsValue))
    (hopts : getField st "options" = .obj ofs)
    (htags : objGet ofs "acceptTags" = .arr tags)
    (hnotevt : jsStrictEq (objGet efs "t") (.str "evt") = false)
    (hnotmem : (tags.any fun e => jsStrictEq e (objGet efs "t")) = false)
    (hnotall : jsStrictEq (objGet efs "t") (.str "all") = false) :
    handleUtf8Message st (.obj efs) = .ok (st, []) := by
  simp [handleUtf8Message, jsGet, hopts, htags, hnotevt, hnotmem, hnotall, jsIndexOfMem]

/-- Witness for C1: `acceptTags = ["A"]`, inbound
`{"t":"B","p":{"cmd":"foo"}}` — the handler returns the unchanged state
and emits nothing. -/
theorem router_unaccepted_tag_no_side_effects_witness :
    handleUtf8Message ⟨[("options", .obj [("acceptTags", .arr [.str "A"])])], none⟩
      (.obj [("t", .str "B"), ("p", .obj [("cmd", .str "foo")])]) =
      .ok (⟨[("options", .obj [("acceptTags", .arr [.str "A"])])], none⟩, []) :=
  router_unaccepted_tag_no_side_effects _ _ _ _ rfl rfl rfl rfl rfl

/-- C2: for every accepted non-`"evt"` envelope whose payload `cmd` is
`"setconfig"`, every payload field other than `cmd` is written as a named
field onto the client runtime state (overwriting any existing value, with
no restriction on the field name), and the generic raw-envelope event
(`cpMessage`) also fires carrying the full envelope. -/
theorem setconfig_patches_fields
    (st : ClientState) (ofs : List (String × JsValue)) (tags : List JsValue)
    (efs pfs : List (String × JsValue))
    (hopts : getField st "options" = .obj ofs)
    (htags : objGet ofs "acceptTags" = .arr tags)
    (hnotevt : jsStrictEq (objGet efs "t") (.str "evt") = false)
    (hacc : ((tags.any fun e => jsStrictEq e (objGet efs "t")) ||
             jsStrictEq (objGet efs "t") (.str "all")) = true)
    (hp : objGet efs "p" = .obj pfs)
    (hcmd : objGet pfs "cmd" = .str "setconfig")
    (hnd : (pfs.map Prod.fst).Nodup) :
    handleUtf8Message st (.obj efs) =
      .ok (applySetconfig st (.obj pfs), [⟨.client, .str "cpMessage", .obj efs⟩]) ∧
    ∀ k v, k ≠ "cmd" → (k, v) ∈ pfs →
      getField (applySetconfig st (.obj pfs)) k = v := by
  constructor
  · have h1 : jsStrictEq (JsValue.str "setconfig") (JsValue.str "loglevels") = false := rfl
    have h2 : jsStrictEq (JsValue.str "setconfig") (JsValue.str "setconfig") = true := rfl
    cases hmem0 : (tags.any fun e => jsStrictEq e (objGet efs "t")) with
    | true =>
        simp [handleUtf8Message, jsGet, hopts, htags, hnotevt, hmem0, hp, hcmd,
          jsIndexOfMem, h1, h2]
    | false =>
        have hall : jsStrictEq (objGet efs "t") (JsValue.str "all") = true := by
          simpa [hmem0] using hacc
        simp [handleUtf8Message, jsGet, hopts, htags, hnotevt, hmem0, hall, hp, hcmd,
          jsIndexOfMem, h1, h2]
  · intro k v hk hmem
    simpa [applySetconfig] using getField_patchFields_of_mem pfs st k v hnd hk hmem

/-- Witness for C2: `acceptTags = ["A"]`, inbound
`{"t":"all","p":{"cmd":"setconfig","sn":"XYZ"}}` — the runtime field `sn`
becomes `"XYZ"` and the `cpMessage` event fires with the full envelope. -/
theorem setconfig_patches_fields_witness :
    (handleUtf8Message ⟨[("options", .obj [("acceptTags", .arr [.str "A"])])], none⟩
        (.obj [("t", .str "all"), ("p", .obj [("cmd", .str "setconfig"), ("sn", .str "XYZ")])]) =
      .ok (applySetconfig ⟨[("options", .obj [("acceptTags", .arr [.str "A"])])], none⟩
             (.obj [("cmd", .str "setconfig"), ("sn", .str "XYZ")]),
           [⟨.client, .str "cpMessage",
             .obj [("t", .str "all"), ("p", .obj [("cmd", .str "setconfig"), ("sn", .str "XYZ")])]⟩])) ∧
    getField (applySetconfig ⟨[("options", .obj [("acceptTags", .arr [.str "A"])])], none⟩
        (.obj [("cmd", .str "setconfig"), ("sn", .str "XYZ")])) "sn" = .str "XYZ" :=
  ⟨(setconfig_patches_fields
      ⟨[("options", .obj [("acceptTags", .arr [.str "A"])])], none⟩
      [("acceptTags", .arr [.str "A"])] [.str "A"]
      [("t", .str "all"), ("p", .obj [("cmd", .str "setconfig"), ("sn", .str "XYZ")])]
      [("cmd", .str "setconfig"), ("sn", .str "XYZ")]
      rfl rfl rfl rfl rfl rfl (by decide)).1,
   (setconfig_patches_fields
      ⟨[("options", .obj [("acceptTags", .arr [.str "A"])])], none⟩
      [("acceptTags", .arr [.str "A"])] [.str "A"]
      [("t", .str "all"), ("p", .obj [("cmd", .str "setconfig"), ("sn", .str "XYZ")])]
      [("cmd", .str "setconfig"), ("sn", .str "XYZ")]
      rfl rfl rfl rfl rfl rfl (by decide)).2
     "sn" (.str "XYZ") (by decide) (List.Mem.tail _ (List.Mem.head _))⟩

/-- C3: every envelope of type `"evt"` is handled without consulting the
tag filter: with `emitEventsAsCP` false, exactly one event named
`payload.cmd` is emitted with value `{args, dto}` and nothing else; with
`emitEventsAsCP` true, instead exactly the generic raw-envelope event
(`cpMessage`) fires carrying the full envelope. In both cases the state
is unchanged. -/
theorem evt_envelope_dispatch
    (st : ClientState) (ofs efs pfs : List (String × JsValue))
    (hopts : getField st "options" = .obj ofs)
    (ht : objGet efs "t" = .str "evt")
    (hp : objGet efs "p" = .obj pfs) :
    handleUtf8Message st (.obj efs) =
      (if truthy (objGet ofs "emitEventsAsCP") then
        .ok (st, [⟨.client, .str "cpMessage", .obj efs⟩])
      else
        .ok (st, [⟨.client, objGet pfs "cmd",
                   .obj [("args", objGet pfs "args"), ("dto", objGet pfs "dto")]⟩])) := by
  simp [handleUtf8Message, jsGet, hopts, ht, hp, jsStrictEq]

/-- Witness for C3: inbound `{"t":"evt","p":{"cmd":"x","args":[1],"dto":{}}}`
against a client with `emitEventsAsCP = false` emits exactly the event
named `"x"` with value `{args:[1], dto:{}}`. -/
theorem evt_envelope_dispatch_witness :
    handleUtf8Message ⟨[("options", .obj [("emitEventsAsCP", .bool false)])], none⟩
      (.obj [("t", .str "evt"),
             ("p", .obj [("cmd", .str "x"), ("args", .arr [.num 1]), ("dto", .obj [])])]) =
      .ok (⟨[("options", .obj [("emitEventsAsCP", .bool false)])], none⟩,
           [⟨.client, .str "x", .obj [("args", .arr [.num 1]), ("dto", .obj [])]⟩]) :=
  evt_envelope_dispatch
    ⟨[("options", .obj [("emitEventsAsCP", .bool false)])], none⟩
    [("emitEventsAsCP", .bool false)]
    [("t", .str "evt"),
     ("p", .obj [("cmd", .str "x"), ("args", .arr [.num 1]), ("dto", .obj [])])]
    [("cmd", .str "x"), ("args", .arr [.num 1]), ("dto", .obj [])]
    rfl rfl rfl

/-- Calling `sendCP` on a freshly constructed client, before `connect()`
has ever been invoked, so `this.cp` is still `undefined`. -/
def sendBeforeConnect : Except String (ClientState × List Emitted × List JsValue) :=
  match mkIoTransit (.str "a") with
  | .error e => .error e
  | .ok st => sendCP st (.str "hello")

/-- C4 counterexample: the claim says `send` emits `sendError` and never
throws whenever the client is not connected, including before `connect()`
has ever been invoked; but on a freshly constructed client `sendCP`
evaluates `this.cp.connection` with `this.cp` undefined and throws a
TypeError instead. -/
theorem sendCP_before_connect_throws :
    sendBeforeConnect = .error "TypeError: Cannot read properties of undefined" := rfl

/-- C4 (amended): once `connect()` has been invoked (the websocket client
object `this.cp` exists), `sendCP` never throws: while not connected (no
connection object yet, or a connection with `connected` false) it emits
exactly the `sendError` event and hands nothing to the transport, and
while connected it hands the message to the transport exactly once, with
no event and no state change. Before `connect()` has ever been invoked it
throws a TypeError (see the counterexample). -/
theorem sendCP_contract (st : ClientState) (msg : JsValue) (ws : WebSocketClient)
    (hcp : st.cp = some ws) :
    (∃ r, sendCP st msg = .ok r) ∧
    (∀ c, ws.connection = some c → c.connected = true →
        sendCP st msg = .ok (st, [], [msg])) ∧
    (ws.connection = none → sendCP st msg = .ok (st, [sendErrorEvent], [])) ∧
    (∀ c, ws.connection = some c → c.connected = false →
        sendCP st msg = .ok (st, [sendErrorEvent], [])) := by
  refine ⟨?_, ?_, ?_, ?_⟩
  · cases hc : ws.connection with
    | none => exact ⟨(st, [sendErrorEvent], []), by simp [sendCP, hcp, hc]⟩
    | some c =>
      cases hcc : c.connected with
      | true => exact ⟨(st, [], [msg]), by simp [sendCP, hcp, hc, hcc]⟩
      | false => exact ⟨(st, [sendErrorEvent], []), by simp [sendCP, hcp, hc, hcc]⟩
  · intro c hc hcc
    simp [sendCP, hcp, hc, hcc]
  · intro hc
    simp [sendCP, hcp, hc]
  · intro c hc hcc
    simp [sendCP, hcp, hc, hcc]

/-- Witness for C4 (amended): on a client holding a live connected
connection, `sendCP` hands exactly one message to the transport. -/
theorem sendCP_contract_witness :
    sendCP ⟨[], some ⟨some ⟨true⟩⟩⟩ (.str "m") = .ok (⟨[], some ⟨some ⟨true⟩⟩⟩, [], [.str "m"]) :=
  (sendCP_contract ⟨[], some ⟨some ⟨true⟩⟩⟩ (.str "m") ⟨some ⟨true⟩⟩ rfl).2.1 ⟨true⟩ rfl rfl

/-- The C5 scenario: a freshly constructed default client (autoReconnect
true, reconnectionTimer 5000) holding a live connection; the transport
close event arrives at time 0, then the host calls `disconnect()` before
the reconnect timer fires, then the event loop delivers the timer at time
5000. Returns the pending-timer list right after the `disconnect()` call
and the number of reconnect attempts performed after the timer delivery. -/
def reconnectAfterDisconnect : Except String (List Nat × Nat) :=
  match mkIoTransit (.str "a") with
  | .error e => .error e
  | .ok c0 =>
    let s0 : SysState :=
      ⟨setField { c0 with cp := some ⟨some ⟨true⟩⟩ } "controlPlaneConnected" (.bool true), 0, [], 0⟩
    match closeHandler s0 with
    | .error e => .error e
    | .ok (s1, _) =>
      match sysDisconnect s1 with
      | .error e => .error e
      | .ok (s2, _) =>
          .ok (s2.pendingReconnects, (fireReconnectTimer s2 5000).connectAttempts)

/-- C5 counterexample: after the transport close at time 0 schedules the
reconnect timer, a `disconnect()` call made before the timer fires leaves
the timer pending (earliest fire instant 5000), and its delivery performs
one reconnect attempt — not the zero attempts the claim requires of a
cancelled timer. -/
theorem disconnect_leaves_reconnect_pending :
    reconnectAfterDisconnect = .ok ([5000], 1) := rfl

/-- C5 (amended): with `autoReconnect` truthy, a transport close (or an
open failure) schedules exactly one reconnect timer, whose callback the
event loop may deliver no earlier than `reconnectionTimer` milliseconds
later, and whose delivery performs exactly one reconnect attempt; but
`disconnect()` does not cancel a pending reconnect timer — the source
stores no timer handle and never calls `clearTimeout`, and the method
leaves the pending-timer list and the attempt counter untouched (its own
comment says the client will automatically reconnect). -/
theorem reconnect_schedule_contract (s : SysState) (ofs : List (String × JsValue)) (err : String)
    (hopts : getField s.client "options" = .obj ofs)
    (har : truthy (objGet ofs "autoReconnect") = true) :
    (closeHandler s = .ok
      ({ s with client := setField s.client "controlPlaneConnected" (.bool false)
                pendingReconnects :=
                  s.pendingReconnects ++ [s.now + delayOf (objGet ofs "reconnectionTimer")] },
       [⟨.client, .str "connectionClose", .str "control plane connection closed"⟩])) ∧
    (connectFailedHandler s err = .ok
      ({ s with client := setField s.client "controlPlaneConnected" (.bool false)
                pendingReconnects :=
                  s.pendingReconnects ++ [s.now + delayOf (objGet ofs "reconnectionTimer")] },
       [⟨.client, .str "connectionFailed", .str err⟩])) ∧
    (∀ e rest t, s.pendingReconnects = e :: rest → t < e → fireReconnectTimer s t = s) ∧
    (∀ e rest t, s.pendingReconnects = e :: rest → e ≤ t →
        (fireReconnectTimer s t).connectAttempts = s.connectAttempts + 1 ∧
        (fireReconnectTimer s t).pendingReconnects = rest) ∧
    (∀ s1 evs, sysDisconnect s = .ok (s1, evs) →
        s1.pendingReconnects = s.pendingReconnects ∧
        s1.connectAttempts = s.connectAttempts) := by
  have hopts2 :
      getField (setField s.client "controlPlaneConnected" (.bool false)) "options" = .obj ofs := by
    rw [getField_setField_other _ _ _ _ (by decide)]
    exact hopts
  refine ⟨?_, ?_, ?_, ?_, ?_⟩
  · simp [closeHandler, jsGet, hopts2, har]
  · simp [connectFailedHandler, jsGet, hopts2, har]
  · intro e rest t hpend ht
    simp [fireReconnectTimer, hpend, Nat.not_le.mpr ht]
  · intro e rest t hpend ht
    simp [fireReconnectTimer, hpend, ht]
  · intro s1 evs h
    unfold sysDisconnect at h
    cases hd : disconnect s.client with
    | error e => rw [hd] at h; cases h
    | ok pr =>
      obtain ⟨c, evs0⟩ := pr
      rw [hd] at h
      simp only [Except.ok.injEq, Prod.mk.injEq] at h
      obtain ⟨h1, h2⟩ := h
      subst h1
      exact ⟨rfl, rfl⟩

/-- Witness for C5 (amended): a transport close on a client whose options
are `{autoReconnect: true, reconnectionTimer: 5000}` at time 0 schedules
exactly one reconnect timer with earliest fire instant 5000. -/
theorem reconnect_schedule_contract_witness :
    closeHandler
      ⟨⟨[("options", .obj [("autoReconnect", .bool true), ("reconnectionTimer", .num 5000)])],
        none⟩, 0, [], 0⟩ =
      .ok (⟨⟨[("options", .obj [("autoReconnect", .bool true), ("reconnectionTimer", .num 5000)]),
              ("controlPlaneConnected", .bool false)], none⟩, 0, [5000], 0⟩,
           [⟨.client, .str "connectionClose", .str "control plane connection closed"⟩]) :=
  (reconnect_schedule_contract
    ⟨⟨[("options", .obj [("autoReconnect", .bool true), ("reconnectionTimer", .num 5000)])],
      none⟩, 0, [], 0⟩
    [("autoReconnect", .bool true), ("reconnectionTimer", .num 5000)] "err" rfl rfl).1

/-- C6: a mid-session transport error makes no state transition — but the
`connectionError` event is emitted on the websocket connection object,
not on the client event surface the host application observes, because
the handler of lines 102-104 is a non-arrow `function` whose `this` is
the connection it is installed on. The claim is right about the intended
behaviour and the code misses it: zero events are visible on the client. -/
theorem connectionError_invisible_to_client (s : SysState) (err : String) :
    (connectionErrorHandler s err).1 = s ∧
    ((connectionErrorHandler s err).2.filter isClientEvent) = [] ∧
    (connectionErrorHandler s err).2 =
      [⟨.connection, .str "connectionError", .str err⟩] := by
  exact ⟨rfl, rfl, rfl⟩

/-- C7: every constructor argument that does not supply an appletId —
`null`, `undefined`, or an object lacking the `appletId` key — makes
construction fail synchronously with a thrown error. The embedded
constructor contains no transport operation (the websocket client is
created only by `connect()`), so no network activity precedes the
throw. -/
theorem ctor_missing_appletId_throws :
    mkIoTransit .null = .error "mandatory appletId not passed to constructor" ∧
    mkIoTransit .undefined = .error "mandatory appletId not passed to constructor" ∧
    ∀ fs, hasKey fs "appletId" = false →
      mkIoTransit (.obj fs) = .error "mandatory appletId not provided in config" := by
  refine ⟨rfl, rfl, ?_⟩
  intro fs h
  simp [mkIoTransit, initialOptions, h]

/-- Witness for C7: a config object carrying only an `accepts` key is
rejected. -/
theorem ctor_missing_appletId_throws_witness :
    hasKey [("accepts", JsValue.str "x")] "appletId" = false ∧
    mkIoTransit (.obj [("accepts", .str "x")]) =
      .error "mandatory appletId not provided in config" :=
  ⟨rfl, ctor_missing_appletId_throws.2.2 [("accepts", JsValue.str "x")] rfl⟩

/-! ### acceptTagsStep read lemmas -/

theorem objGet_acceptTagsStep_other (fs : List (String × JsValue)) (k : String)
    (h : k ≠ "acceptTags") : objGet (acceptTagsStep fs) k = objGet fs k := by
  cases h1 : hasKey fs "accepts" with
  | false => simp [acceptTagsStep, h1, objGet_setProp_other _ _ _ _ h]
  | true =>
    cases h2 : (!isArray (objGet fs "accepts") && jsTypeIsString (objGet fs "accepts")) with
    | true => simp [acceptTagsStep, h1, h2, objGet_setProp_other _ _ _ _ h]
    | false =>
      cases h3 : isArray (objGet fs "accepts") with
      | true => simp [acceptTagsStep, h1, h2, h3, objGet_setProp_other _ _ _ _ h]
      | false =>
        have h4 : jsTypeIsString (objGet fs "accepts") = false := by simpa [h3] using h2
        simp [acceptTagsStep, h1, h2, h3, h4]

theorem hasKey_acceptTagsStep_other (fs : List (String × JsValue)) (k : String)
    (h : k ≠ "acceptTags") : hasKey (acceptTagsStep fs) k = hasKey fs k := by
  cases h1 : hasKey fs "accepts" with
  | false => simp [acceptTagsStep, h1, hasKey_setProp_other _ _ _ _ h]
  | true =>
    cases h2 : (!isArray (objGet fs "accepts") && jsTypeIsString (objGet fs "accepts")) with
    | true => simp [acceptTagsStep, h1, h2, hasKey_setProp_other _ _ _ _ h]
    | false =>
      cases h3 : isArray (objGet fs "accepts") with
      | true => simp [acceptTagsStep, h1, h2, h3, hasKey_setProp_other _ _ _ _ h]
      | false =>
        have h4 : jsTypeIsString (objGet fs "accepts") = false := by simpa [h3] using h2
        simp [acceptTagsStep, h1, h2, h3, h4]

/-- The `acceptTags` entry of the constructed options, `none` when
construction failed or the options field is not an object. -/
def ctorOption (v : JsValue) (k : String) : Option JsValue :=
  match mkIoTransit v with
  | .ok st =>
    match getField st "options" with
    | .obj ofs => some (objGet ofs k)
    | _ => none
  | .error _ => none

/-- C8 counterexample: constructing with `{appletId: "a", accepts: []}`
is accepted and yields an EMPTY `acceptTags` array — refuting the claim
that `acceptTags` is non-empty after construction with any accepted
configuration. -/
theorem acceptTags_can_be_empty :
    ctorOption (.obj [("appletId", .str "a"), ("accepts", .arr [])]) "acceptTags" =
      some (.arr []) := rfl

/-- C8 (amended): `acceptTags` defaults to the one-element array holding
`appletId` when no `accepts` option is supplied; a string `accepts`
normalizes to the one-element array holding it and an array `accepts` is
kept as-is — so a single string and the corresponding singleton array
normalize to the same form — while any other `accepts` type leaves
`acceptTags` untouched. Hence `acceptTags` is NOT always non-empty: an
explicitly empty `accepts` array is kept empty (see counterexample). -/
theorem acceptTags_normalization (fs : List (String × JsValue)) :
    objGet (normalizeOptions fs) "acceptTags" =
      (if hasKey fs "accepts" then
        match objGet fs "accepts" with
        | .str x => .arr [.str x]
        | .arr xs => .arr xs
        | _ => objGet fs "acceptTags"
      else .arr [objGet fs "appletId"]) := by
  have hstrip : objGet (normalizeOptions fs) "acceptTags" =
      objGet (acceptTagsStep fs) "acceptTags" := by
    simp [normalizeOptions, objGet_setProp_other]
  rw [hstrip]
  cases h1 : hasKey fs "accepts" with
  | false => simp [acceptTagsStep, h1, objGet_setProp_same]
  | true =>
    cases h2 : objGet fs "accepts" with
    | null => simp [acceptTagsStep, h1, h2, isArray, jsTypeIsString]
    | undefined => simp [acceptTagsStep, h1, h2, isArray, jsTypeIsString]
    | bool b => simp [acceptTagsStep, h1, h2, isArray, jsTypeIsString]
    | num n => simp [acceptTagsStep, h1, h2, isArray, jsTypeIsString]
    | str x => simp [acceptTagsStep, h1, h2, isArray, jsTypeIsString, objGet_setProp_same]
    | arr xs => simp [acceptTagsStep, h1, h2, isArray, jsTypeIsString, objGet_setProp_same]
    | obj ofs => simp [acceptTagsStep, h1, h2, isArray, jsTypeIsString]

/-- C9 counterexample: the data model permits `reconnectDelayMs = 0`
(integer ≥ 0), but constructing with `{appletId: "a", reconnectionTimer: 0}`
yields `reconnectionTimer = 5000`: the supplied falsy value is replaced by
the built-in default instead of being used, because the option is
defaulted with `||`. -/
theorem reconnectionTimer_zero_overridden :
    ctorOption (.obj [("appletId", .str "a"), ("reconnectionTimer", .num 0)]) "reconnectionTimer" =
      some (.num 5000) := rfl

/-- C9 (amended): the three options defaulted via `hasOwnProperty`
ternaries — `autoReconnect`, `secureWebSocket`, `emitEventsAsCP` — use
any supplied value, falsy included; every other option — `authUser`,
`authPass`, `controlPlaneUri`, `controlPlanePort`,
`controlPlaneSubProtocol`, `controlPlaneOrigin`, `reconnectionTimer` — is
defaulted with `||`, so a supplied truthy value is used but a falsy
supplied value (such as `reconnectionTimer = 0`) is replaced by the
built-in default. -/
theorem option_defaulting (fs : List (String × JsValue)) :
    objGet (normalizeOptions fs) "autoReconnect" =
      (if hasKey fs "autoReconnect" then objGet fs "autoReconnect" else .bool AUTO_RECONNECT) ∧
    objGet (normalizeOptions fs) "secureWebSocket" =
      (if hasKey fs "secureWebSocket" then objGet fs "secureWebSocket" else .bool SECURE_WEBSOCKET) ∧
    objGet (normalizeOptions fs) "emitEventsAsCP" =
      (if hasKey fs "emitEventsAsCP" then objGet fs "emitEventsAsCP" else .bool EMIT_EVENTS_AS_CP) ∧
    objGet (normalizeOptions fs) "authUser" = jsOr (objGet fs "authUser") (.str AUTH_USER) ∧
    objGet (normalizeOptions fs) "authPass" = jsOr (objGet fs "authPass") (.str AUTH_PASS) ∧
    objGet (normalizeOptions fs) "controlPlaneUri" =
      jsOr (objGet fs "controlPlaneUri") (.str CONTROLPLANE_URI) ∧
    objGet (normalizeOptions fs) "controlPlanePort" =
      jsOr (objGet fs "controlPlanePort") (.num CONTROLPLANE_PORT) ∧
    objGet (normalizeOptions fs) "controlPlaneSubProtocol" =
      jsOr (objGet fs "controlPlaneSubProtocol") (.str CONTROLPLANE_SUBPROTOCOL) ∧
    objGet (normalizeOptions fs) "controlPlaneOrigin" =
      jsOr (objGet fs "controlPlaneOrigin") (.str CONTROLPLANE_ORIGIN) ∧
    objGet (normalizeOptions fs) "reconnectionTimer" =
      jsOr (objGet fs "reconnectionTimer") (.num RECONNECTION_TIMER) := by
  refine ⟨?_, ?_, ?_, ?_, ?_, ?_, ?_, ?_, ?_, ?_⟩ <;>
    simp [normalizeOptions, objGet_setProp_same, objGet_setProp_other,
      hasKey_setProp_other, objGet_acceptTagsStep_other, hasKey_acceptTagsStep_other]

/-- C10: calling `disconnect()` while not connected (in particular on a
freshly constructed client, before `connect()` has ever been invoked,
where `controlPlaneConnected` is `false`) is a no-op: nothing is thrown,
no event is emitted, the client state and the event-loop state are left
unchanged. -/
theorem disconnect_noop_when_not_connected (s : SysState)
    (h : truthy (getField s.client "controlPlaneConnected") = false) :
    sysDisconnect s = .ok (s, []) := by
  simp [sysDisconnect, disconnect, h]

/-- Witness for C10: `disconnect()` on a client in the
constructor-initial connection state (`controlPlaneConnected = false`,
no websocket client) returns the state unchanged and emits nothing. -/
theorem disconnect_noop_when_not_connected_witness :
    truthy (getField (ClientState.mk [("controlPlaneConnected", .bool false)] none)
      "controlPlaneConnected") = false ∧
    sysDisconnect ⟨⟨[("controlPlaneConnected", .bool false)], none⟩, 0, [], 0⟩ =
      .ok (⟨⟨[("controlPlaneConnected", .bool false)], none⟩, 0, [], 0⟩, []) :=
  ⟨rfl, disconnect_noop_when_not_connected
    ⟨⟨[("controlPlaneConnected", .bool false)], none⟩, 0, [], 0⟩ rfl⟩

end IoTransit

